import Mathlib

/-!
Verification of the `iter-grid` library (`src/lib.rs`).

The library wraps a flat sequence together with a column count (`Grid`)
and derives row / column / range / diagonal / transpose views by index
arithmetic over the flattened sequence.

Shallow embedding conventions:
* the wrapped iterator/sequence is modelled as a `List`;
* `usize` is modelled as `Nat`; subtraction, `%` and `/` are modelled as
  checked operations (`csub`, `modChecked`, `divChecked`) that return a
  `Panic` value exactly where the Rust code panics (debug overflow
  semantics for subtraction, `%`/`/` by zero, failed `assert!`,
  out-of-bounds `Index::index`, `Iterator::step_by(0)`);
* `skip`/`take`/`step_by`/`enumerate().filter(..)` become `List.drop`,
  `List.take`, `stepAux` and `colFilterFrom`.  Rust's views are lazy; the
  model materialises them eagerly, so a panic that Rust raises on the
  first pull (the `i % columns` with `columns == 0` inside `iter_cols`)
  is raised by the model when the view is built.
-/

namespace IterGrid

/-- The ways the Rust code can abort: a failed `assert!` (also used for
`step_by(0)`), subtraction overflow of `usize` (debug build), `%` or `/`
by zero, and an out-of-bounds `Index::index`. -/
inductive Panic where
  | assertFail
  | subUnderflow
  | divByZero
  | indexOOB
deriving DecidableEq

deriving instance DecidableEq for Except

/-- Checked `usize` subtraction: Rust debug builds panic on underflow. -/
def csub (a b : Nat) : Except Panic Nat :=
  if b ≤ a then .ok (a - b) else .error .subUnderflow

/-- Checked `%`: Rust panics on remainder by zero. -/
def modChecked (a b : Nat) : Except Panic Nat :=
  if b = 0 then .error .divByZero else .ok (a % b)

/-- Checked `/`: Rust panics on division by zero. -/
def divChecked (a b : Nat) : Except Panic Nat :=
  if b = 0 then .error .divByZero else .ok (a / b)

/-- `usize::MAX`, used by `iter_rows` as the `max` of `extract_range`. -/
def UMAX : Nat := 2 ^ 64 - 1

/-- `struct Grid<I> { pub columns: usize, inner: I }` with the inner
iterator materialised as a list. -/
structure Grid (α : Type) where
  columns : Nat
  inner : List α
deriving DecidableEq

/-- One end of a `RangeBounds<usize>` value (`core::ops::Bound`). -/
inductive Bd where
  | included : Nat → Bd
  | excluded : Nat → Bd
  | unbounded : Bd
deriving DecidableEq

/-- A `RangeBounds<usize>` value, reduced to its two bounds. -/
structure RangeB where
  startB : Bd
  endB : Bd
deriving DecidableEq

/-- `Grid::extract_range`: resolve the bounds to `start..end` and
`assert!(end <= max)`. -/
def extract_range (b : RangeB) (max : Nat) : Except Panic (Nat × Nat) :=
  let s := match b.startB with
    | .included p => p
    | .excluded p => p + 1
    | .unbounded => 0
  let e := match b.endB with
    | .included p => p + 1
    | .excluded p => p
    | .unbounded => max
  if e ≤ max then .ok (s, e) else .error .assertFail

/-- `Iterator::step_by(s)` on a list: keep the head, then every `s`-th
element.  `stepAux s k l` still has `k` elements to discard before the
next kept one; `step_by` corresponds to `k = 0`.  Callers guarantee
`s ≠ 0` (Rust's `step_by(0)` panics; the two call sites that could reach
it check first). -/
def stepAux (s : Nat) : Nat → List α → List α
  | _, [] => []
  | 0, a :: rest => a :: stepAux s (s - 1) rest
  | k + 1, _ :: rest => stepAux s k rest

/-- `Grid::index_to_flat`: `self.columns * row + col` (no checks). -/
def index_to_flat (g : Grid α) (col row : Nat) : Nat :=
  g.columns * row + col

/-- `Grid::index_from_flat`: asserts `columns != 0`, then
`(index % columns, (index - index % columns) / columns)`. -/
def index_from_flat (g : Grid α) (index : Nat) : Except Panic (Nat × Nat) :=
  if g.columns = 0 then .error .assertFail
  else .ok (index % g.columns, (index - index % g.columns) / g.columns)

/-- `Grid::get` for an indexable source: asserts `col < columns`, then
indexes the source at the flat offset; an out-of-range offset panics in
the source's `Index` impl (slice/`Vec` semantics). -/
def get (g : Grid α) (col row : Nat) : Except Panic α :=
  if col < g.columns then
    match g.inner[index_to_flat g col row]? with
    | some a => .ok a
    | none => .error .indexOOB
  else .error .assertFail

/-- `Grid::get_mut` for an indexable source: same control flow and
panic sites as `get` (`assert!(col < self.columns)`, then
`&mut self.inner[index]`); the returned value stands for the element the
mutable reference points at. -/
def get_mut (g : Grid α) (col row : Nat) : Except Panic α :=
  if col < g.columns then
    match g.inner[index_to_flat g col row]? with
    | some a => .ok a
    | none => .error .indexOOB
  else .error .assertFail

/-- `Grid::iter_col`: asserts `col < columns`, then
`skip(col).step_by(columns)`. -/
def iter_col (g : Grid α) (col : Nat) : Except Panic (List α) :=
  if col < g.columns then .ok (stepAux g.columns 0 (g.inner.drop col))
  else .error .assertFail

/-- `Grid::iter_row`: `skip(row * columns).take(columns)`; never fails. -/
def iter_row (g : Grid α) (row : Nat) : List α :=
  (g.inner.drop (row * g.columns)).take g.columns

/-- `Grid::iter_rows`: resolve the bounds against `usize::MAX`, then
`skip(start * columns).take((end - start) * columns)`, regridded with
the same column count. -/
def iter_rows (g : Grid α) (b : RangeB) : Except Panic (Grid α) :=
  match extract_range b UMAX with
  | .error p => .error p
  | .ok (s, e) =>
    match csub e s with
    | .error p => .error p
    | .ok d => .ok ⟨g.columns, (g.inner.drop (s * g.columns)).take (d * g.columns)⟩

/-- The `enumerate().filter(|(i, _)| bounds.contains(&(i % columns)))`
body of `iter_cols`, with running index `i`.  With `c = 0` the filter
closure's `i % columns` panics as soon as an element is pulled. -/
def colFilterFrom (s e c : Nat) : Nat → List α → Except Panic (List α)
  | _, [] => .ok []
  | i, a :: rest =>
    if c = 0 then .error .divByZero
    else
      match colFilterFrom s e c (i + 1) rest with
      | .error p => .error p
      | .ok kept => if s ≤ i % c ∧ i % c < e then .ok (a :: kept) else .ok kept

/-- `Grid::iter_cols`: resolve the bounds against `columns`, assert
`end <= columns`, keep elements whose flat index is in a kept column,
and set the derived grid's `columns` to `end - start`. -/
def iter_cols (g : Grid α) (b : RangeB) : Except Panic (Grid α) :=
  match extract_range b g.columns with
  | .error p => .error p
  | .ok (s, e) =>
    if e ≤ g.columns then
      match csub e s with
      | .error p => .error p
      | .ok nc =>
        match colFilterFrom s e g.columns 0 g.inner with
        | .error p => .error p
        | .ok kept => .ok ⟨nc, kept⟩
    else .error .assertFail

/-- `Grid::iter_sub`: resolve the column range eagerly (its width is the
new `columns` field), then compose `iter_rows` and `iter_cols`. -/
def iter_sub (g : Grid α) (cb rb : RangeB) : Except Panic (Grid α) :=
  match extract_range cb g.columns with
  | .error p => .error p
  | .ok (s, e) =>
    match csub e s with
    | .error p => .error p
    | .ok nc =>
      match iter_rows g rb with
      | .error p => .error p
      | .ok g2 =>
        match iter_cols g2 cb with
        | .error p => .error p
        | .ok g3 => .ok ⟨nc, g3.inner⟩

/-- The skip computed by `Grid::iter_diag_bwd`:
`index_to_flat(columns - 1, row - (columns - 1 - col))` when
`col > row`, else `index_to_flat(row - col, 0)`, with every subtraction
checked. -/
def diag_bwd_skip (g : Grid α) (col row : Nat) : Except Panic Nat :=
  if row < col then
    match csub g.columns 1 with
    | .error p => .error p
    | .ok cm1 =>
      match csub cm1 col with
      | .error p => .error p
      | .ok t =>
        match csub row t with
        | .error p => .error p
        | .ok r2 => .ok (index_to_flat g cm1 r2)
  else
    match csub row col with
    | .error p => .error p
    | .ok d => .ok (index_to_flat g d 0)

/-- `Grid::iter_diag_bwd`: `skip(skip).step_by(columns - 1)`; the
subtraction is checked and `step_by(0)` panics. -/
def iter_diag_bwd (g : Grid α) (col row : Nat) : Except Panic (List α) :=
  match diag_bwd_skip g col row with
  | .error p => .error p
  | .ok sk =>
    match csub g.columns 1 with
    | .error p => .error p
    | .ok st =>
      if st = 0 then .error .assertFail
      else .ok (stepAux st 0 (g.inner.drop sk))

/-- `Grid::iter_diag_fwd`: `diff = col.abs_diff(row)` projected through
`index_to_flat`, then `skip(diff).step_by(columns + 1)`; total. -/
def iter_diag_fwd (g : Grid α) (col row : Nat) : List α :=
  let diff := if col < row then row - col else col - row
  let sk := if col < row then index_to_flat g 0 diff else index_to_flat g diff 0
  stepAux (g.columns + 1) 0 (g.inner.drop sk)

/-- `Grid::into_transpose`: `assert!(columns % len == 0)` (note the
operand order in the source), new `columns` is `len / columns`, and the
new sequence drains `iter_col(col)` for `col` in `0..columns`. -/
def into_transpose (g : Grid α) : Except Panic (Grid α) :=
  match modChecked g.columns g.inner.length with
  | .error p => .error p
  | .ok m =>
    if m = 0 then
      match divChecked g.inner.length g.columns with
      | .error p => .error p
      | .ok nc =>
        match (List.range g.columns).mapM (fun col => iter_col g col) with
        | .error p => .error p
        | .ok cols => .ok ⟨nc, cols.flatten⟩
    else .error .assertFail

/-- Anchor of the backward diagonal as the spec words it: the flat
offset of the topmost-rightmost point, `(columns-1, row-(columns-1-col))`
when `col > row`, else `(row-col, 0)`.  Spec-side formula, to compare
with `diag_bwd_skip` computed by the source. -/
def specBwdAnchor (columns col row : Nat) : Nat :=
  if row < col then columns * (row - (columns - 1 - col)) + (columns - 1)
  else row - col

/-- Anchor of the forward diagonal as the spec words it: `(0, row-col)`
when `row >= col`, else `(col-row, 0)`, as a flat offset. -/
def specFwdAnchor (columns col row : Nat) : Nat :=
  if col ≤ row then columns * (row - col) else col - row

/-! ### Helper lemmas -/

/-- Indexing a stepped list: element `k` of `stepAux s j l` is element
`j + k * s` of `l` (for a positive step). -/
theorem stepAux_getElem (s : Nat) (hs : 0 < s) :
    ∀ (l : List α) (j k : Nat), (stepAux s j l)[k]? = l[j + k * s]? := by
  intro l
  induction l with
  | nil => intro j k; cases j <;> simp [stepAux]
  | cons a rest ih =>
    intro j k
    cases j with
    | zero =>
      cases k with
      | zero => simp [stepAux]
      | succ k =>
        simp only [stepAux]
        rw [List.getElem?_cons_succ, ih (s - 1) k,
          (by rw [Nat.succ_mul]; omega : 0 + (k + 1) * s = ((s - 1) + k * s) + 1),
          List.getElem?_cons_succ]
    | succ j =>
      simp only [stepAux]
      rw [ih j k, (by omega : j + 1 + k * s = (j + k * s) + 1), List.getElem?_cons_succ]

/-- A step of `1` keeps the whole list. -/
theorem stepAux_one : ∀ l : List α, stepAux 1 0 l = l := by
  intro l
  induction l with
  | nil => rfl
  | cons a rest ih => simp [stepAux, ih]

/-- Successful `extract_range` results: the components are the resolved
bounds and the resolved end respects `max`. -/
theorem extract_range_resolved (b : RangeB) (m s e : Nat)
    (h : extract_range b m = .ok (s, e)) :
    (s = match b.startB with
      | .included p => p
      | .excluded p => p + 1
      | .unbounded => 0)
    ∧ (e = match b.endB with
      | .included p => p + 1
      | .excluded p => p
      | .unbounded => m)
    ∧ e ≤ m := by
  simp only [extract_range] at h
  split at h
  · next hc => cases h; exact ⟨rfl, rfl, hc⟩
  · cases h

/-- `colFilterFrom` can only panic with a division by zero. -/
theorem colFilterFrom_panic (s e c : Nat) (p : Panic) :
    ∀ (i : Nat) (l : List α), colFilterFrom s e c i l = .error p → p = .divByZero := by
  intro i l
  induction l generalizing i with
  | nil => intro h; simp [colFilterFrom] at h
  | cons a rest ih =>
    intro h
    simp only [colFilterFrom] at h
    split at h
    · cases h; rfl
    · split at h
      · next q hq => cases h; exact ih (i + 1) hq
      · split at h <;> cases h

/-- `iter_rows` never changes the column count. -/
theorem iter_rows_columns (g g2 : Grid α) (b : RangeB)
    (h : iter_rows g b = .ok g2) : g2.columns = g.columns := by
  unfold iter_rows at h
  split at h
  · cases h
  · split at h
    · cases h
    · cases h; rfl

/-! ### C1: `into_transpose` acceptance condition

The code asserts `columns % len == 0`, contradicting both the spec
("requires the source length be evenly divisible by `columns`") and the
function's own doc-comment example (a 2-row, 3-column grid). -/

/-- C1: the grid of the function's own doc comment — 6 elements, 3
columns, so the source length IS evenly divisible by `columns` — makes
`into_transpose` abort on its reversed assertion (`3 % 6 ≠ 0`) instead
of succeeding. -/
theorem c1_into_transpose_rejects_divisible :
    (⟨3, [1, 2, 3, 4, 5, 6]⟩ : Grid Nat).inner.length %
        (⟨3, [1, 2, 3, 4, 5, 6]⟩ : Grid Nat).columns = 0
    ∧ into_transpose (⟨3, [1, 2, 3, 4, 5, 6]⟩ : Grid Nat) = .error .assertFail := by
  decide

/-! ### C2: transpose round trip -/

/-- C2: a rectangular 2×5 source (length 10 evenly divisible by the
5 columns) cannot be transposed twice: already the first
`into_transpose` aborts (`5 % 10 ≠ 0`), so the round-trip law claimed by
the spec fails on the code as written. -/
theorem c2_roundtrip_aborts :
    (⟨5, List.range 10⟩ : Grid Nat).inner.length %
        (⟨5, List.range 10⟩ : Grid Nat).columns = 0
    ∧ into_transpose (⟨5, List.range 10⟩ : Grid Nat) = .error .assertFail := by
  decide

/-! ### C4: `get` -/

/-- C4 counterexample: `get(0, 2)` on a 3-column grid of 6 elements has
`col < columns` and flat offset `6`, one past the end; the claim says
this returns `None`/absent (not a failure), but the code indexes the
source and the indexing panics. -/
theorem c4_counterexample :
    get (⟨3, [0, 1, 2, 3, 4, 5]⟩ : Grid Nat) 0 2 = .error .indexOOB := by decide

/-- C4 (amended): `get(col,row)` aborts when `col ≥ columns`; when
`col < columns` it indexes the source at `row*columns + col`, returning
the element when the offset is in range and panicking (not `None`) when
the offset is past the end of the source. -/
theorem c4_get_flat_and_panic (g : Grid α) (col row : Nat) :
    (g.columns ≤ col → get g col row = .error .assertFail)
    ∧ (col < g.columns → index_to_flat g col row < g.inner.length →
        ∃ x, g.inner[index_to_flat g col row]? = some x ∧ get g col row = .ok x)
    ∧ (col < g.columns → g.inner.length ≤ index_to_flat g col row →
        get g col row = .error .indexOOB) := by
  refine ⟨?_, ?_, ?_⟩
  · intro h
    unfold get
    rw [if_neg (by omega)]
  · intro h hlt
    obtain ⟨x, hx⟩ : ∃ x, g.inner[index_to_flat g col row]? = some x :=
      ⟨_, List.getElem?_eq_getElem hlt⟩
    refine ⟨x, hx, ?_⟩
    unfold get
    rw [if_pos h, hx]
  · intro h hge
    unfold get
    rw [if_pos h, List.getElem?_eq_none hge]

/-- C4 witness: on the 3-column grid of `[0,1,2,3,4,5]`, `get(1,1)`
reads flat offset `4` and returns `4`. -/
theorem c4_get_flat_and_panic_witness :
    get (⟨3, [0, 1, 2, 3, 4, 5]⟩ : Grid Nat) 1 1 = .ok 4 := by
  obtain ⟨x, hx, hg⟩ :=
    (c4_get_flat_and_panic (⟨3, [0, 1, 2, 3, 4, 5]⟩ : Grid Nat) 1 1).2.1
      (by decide) (by decide)
  have h4 : (⟨3, [0, 1, 2, 3, 4, 5]⟩ : Grid Nat).inner[index_to_flat
      (⟨3, [0, 1, 2, 3, 4, 5]⟩ : Grid Nat) 1 1]? = some 4 := by decide
  rw [hx] at h4
  injection h4 with h4
  rw [h4] at hg
  exact hg

/-! ### C6: flat-index round trip -/

/-- C6: for `columns > 0`, `index_from_flat` succeeds and
`index_to_flat` applied to its components returns the original index. -/
theorem c6_flat_roundtrip (g : Grid α) (idx : Nat) (h : 0 < g.columns) :
    index_from_flat g idx = .ok (idx % g.columns, idx / g.columns)
    ∧ index_to_flat g (idx % g.columns) (idx / g.columns) = idx := by
  have hc : g.columns ≠ 0 := by omega
  constructor
  · unfold index_from_flat
    rw [if_neg hc]
    have h1 : idx - idx % g.columns = g.columns * (idx / g.columns) := by
      have := Nat.div_add_mod idx g.columns
      omega
    rw [h1, Nat.mul_div_cancel_left _ h]
  · exact Nat.div_add_mod idx g.columns

/-- C6 witness: on a 5-column grid, flat index 13 decomposes to
`(3, 2)` and recomposes to 13. -/
theorem c6_flat_roundtrip_witness :
    index_from_flat (⟨5, []⟩ : Grid Nat) 13 = .ok (13 % 5, 13 / 5)
    ∧ index_to_flat (⟨5, []⟩ : Grid Nat) (13 % 5) (13 / 5) = 13 :=
  c6_flat_roundtrip (⟨5, []⟩ : Grid Nat) 13 (by decide)

/-! ### C5: behaviour on `columns == 0` -/

/-- C5 counterexample: on a grid constructed with `columns == 0`,
`iter_row` returns a normal empty result and `iter_diag_fwd` even yields
the whole source — neither fails fast as the claim demands of every
coordinate-resolving operation. -/
theorem c5_counterexample :
    iter_row (⟨0, [7, 8, 9]⟩ : Grid Nat) 0 = []
    ∧ iter_diag_fwd (⟨0, [7, 8, 9]⟩ : Grid Nat) 0 0 = [7, 8, 9] := by decide

/-- C5 (amended): with `columns == 0`, `index_from_flat`, `get`,
`get_mut` and `iter_col` fail fast on their assertions and
`iter_diag_bwd` on the `columns - 1` underflow; the original claim fails
for the rest: `iter_row` returns a normal empty list, `iter_rows`
returns the normal empty grid for every range resolving without
inversion, `iter_diag_fwd` returns a normal suffix of the source (the
whole source at `(0,0)`), `iter_cols` — whose column range can only
resolve with end `0` — propagates the range assertion failure (resolved
end positive), fails on `end - start` when the resolved start is
positive, panics on the filter's `i % 0` only when the source is
nonempty, and returns the normal empty grid on an empty source, and
`iter_sub` returns the normal empty grid whenever its column range
resolves to start `0` and its row range resolves without inversion, even
over a nonempty source. -/
theorem c5_zero_columns_behavior (g : Grid α) (h : g.columns = 0)
    (col row idx : Nat) :
    index_from_flat g idx = .error .assertFail
    ∧ get g col row = .error .assertFail
    ∧ get_mut g col row = .error .assertFail
    ∧ iter_col g col = .error .assertFail
    ∧ iter_diag_bwd g col row = .error .subUnderflow
    ∧ iter_row g row = []
    ∧ iter_diag_fwd g col row = g.inner.drop (if col < row then 0 else col - row)
    ∧ (∀ b s e, extract_range b UMAX = .ok (s, e) → s ≤ e →
        iter_rows g b = .ok ⟨0, []⟩)
    ∧ (∀ b s e, extract_range b g.columns = .ok (s, e) → e = 0)
    ∧ (∀ b p, extract_range b g.columns = .error p → iter_cols g b = .error p)
    ∧ (∀ b s e, extract_range b g.columns = .ok (s, e) → 0 < s →
        iter_cols g b = .error .subUnderflow)
    ∧ (∀ b e, extract_range b g.columns = .ok (0, e) → g.inner = [] →
        iter_cols g b = .ok ⟨0, []⟩)
    ∧ (∀ b e, extract_range b g.columns = .ok (0, e) → g.inner ≠ [] →
        iter_cols g b = .error .divByZero)
    ∧ (∀ cb rb e s2 e2, extract_range cb g.columns = .ok (0, e) →
        extract_range rb UMAX = .ok (s2, e2) → s2 ≤ e2 →
        iter_sub g cb rb = .ok ⟨0, []⟩) := by
  refine ⟨?_, ?_, ?_, ?_, ?_, ?_, ?_, ?_, ?_, ?_, ?_, ?_, ?_, ?_⟩
  · simp [index_from_flat, h]
  · simp [get, h]
  · simp [get_mut, h]
  · simp [iter_col, h]
  · unfold iter_diag_bwd diag_bwd_skip
    by_cases hrc : row < col
    · rw [if_pos hrc]
      simp [csub, h]
    · rw [if_neg hrc]
      have hcr : col ≤ row := Nat.not_lt.mp hrc
      simp [csub, h, hcr, index_to_flat]
  · simp [iter_row, h]
  · unfold iter_diag_fwd
    by_cases hcr : col < row
    · simp [hcr, index_to_flat, h, stepAux_one]
    · simp [hcr, index_to_flat, h, stepAux_one]
  · intro b s e hre hse
    unfold iter_rows
    rw [hre]
    dsimp only
    unfold csub
    rw [if_pos hse]
    simp [h]
  · intro b s e hre
    have := (extract_range_resolved b g.columns s e hre).2.2
    omega
  · intro b p hre
    unfold iter_cols
    rw [hre]
  · intro b s e hre hs
    have hemax := (extract_range_resolved b g.columns s e hre).2.2
    have he : e = 0 := by omega
    subst he
    unfold iter_cols
    rw [hre]
    dsimp only
    rw [if_pos (Nat.zero_le g.columns)]
    unfold csub
    rw [if_neg (by omega : ¬ s ≤ 0)]
  · intro b e hre hnil
    have hemax := (extract_range_resolved b g.columns 0 e hre).2.2
    have he : e = 0 := by omega
    subst he
    unfold iter_cols
    rw [hre]
    dsimp only
    rw [if_pos (Nat.zero_le g.columns)]
    unfold csub
    rw [if_pos (Nat.le_refl 0)]
    dsimp only
    rw [hnil]
    simp [colFilterFrom]
  · intro b e hre hne
    have hemax := (extract_range_resolved b g.columns 0 e hre).2.2
    have he : e = 0 := by omega
    subst he
    obtain ⟨a, rest, hcons⟩ := List.exists_cons_of_ne_nil hne
    unfold iter_cols
    rw [hre]
    dsimp only
    rw [if_pos (Nat.zero_le g.columns)]
    unfold csub
    rw [if_pos (Nat.le_refl 0)]
    dsimp only
    rw [hcons]
    simp [colFilterFrom, h]
  · intro cb rb e s2 e2 hcb hrb hs2
    have hemax := (extract_range_resolved cb g.columns 0 e hcb).2.2
    have he : e = 0 := by omega
    subst he
    unfold iter_sub
    rw [hcb]
    dsimp only
    unfold csub
    rw [if_pos (Nat.le_refl 0)]
    dsimp only
    have hrows : iter_rows g rb = .ok ⟨0, []⟩ := by
      unfold iter_rows
      rw [hrb]
      dsimp only
      unfold csub
      rw [if_pos hs2]
      simp [h]
    rw [hrows]
    dsimp only
    have hcb2 : extract_range cb (0 : Nat) = .ok (0, 0) := by
      rw [h] at hcb
      exact hcb
    have hcols2 : iter_cols (⟨0, []⟩ : Grid α) cb = .ok ⟨0, []⟩ := by
      simp [iter_cols, hcb2, csub, colFilterFrom]
    rw [hcols2]

/-- C5 witness: on the zero-column grid over `[7,8,9]`, `get_mut`
aborts on its assertion, `iter_cols(..)` (resolved range `0..0`) panics
on the filter's `i % 0`, and `iter_sub(.., ..)` succeeds with the normal
empty grid even though the source is nonempty. -/
theorem c5_zero_columns_behavior_witness :
    get_mut (⟨0, [7, 8, 9]⟩ : Grid Nat) 1 0 = .error .assertFail
    ∧ iter_cols (⟨0, [7, 8, 9]⟩ : Grid Nat) ⟨Bd.unbounded, Bd.unbounded⟩ =
      .error .divByZero
    ∧ iter_sub (⟨0, [7, 8, 9]⟩ : Grid Nat) ⟨Bd.unbounded, Bd.unbounded⟩
        ⟨Bd.unbounded, Bd.unbounded⟩ = .ok ⟨0, []⟩ := by
  obtain ⟨h1, h2, h3, h4, h5, h6, h7, h8, h9, h10, h11, h12, h13, h14⟩ :=
    c5_zero_columns_behavior (⟨0, [7, 8, 9]⟩ : Grid Nat) rfl 1 0 0
  exact ⟨h3, h13 ⟨Bd.unbounded, Bd.unbounded⟩ 0 (by decide) (by decide),
    h14 ⟨Bd.unbounded, Bd.unbounded⟩ ⟨Bd.unbounded, Bd.unbounded⟩ 0 0 UMAX
      (by decide) (by decide) (by decide)⟩

/-! ### C9: `iter_rows` range resolution -/

/-- C9 counterexample: `iter_rows(0..2)` on a 5-column grid whose source
has only 5 elements yields 5 elements, not the `(end-start)*columns = 10`
the claim states. -/
theorem c9_counterexample :
    iter_rows (⟨5, [0, 1, 2, 3, 4]⟩ : Grid Nat) ⟨Bd.included 0, Bd.excluded 2⟩ =
      .ok ⟨5, [0, 1, 2, 3, 4]⟩
    ∧ ([0, 1, 2, 3, 4] : List Nat).length < (2 - 0) * 5 := by decide

/-- C9 (amended): `iter_rows` resolves the bounds (unbounded start to 0,
unbounded end to `usize::MAX`), yields the source elements from flat
offset `start*columns` capped at `(end-start)*columns` — exactly
`(end-start)*columns` of them when the source holds at least
`end*columns` elements — and with an unbounded end and `columns > 0` it
yields every element from `start*columns` on, bounded only by source
exhaustion. -/
theorem c9_iter_rows_resolution (g : Grid α) (b : RangeB) (s e : Nat)
    (hre : extract_range b UMAX = .ok (s, e)) (hse : s ≤ e) :
    iter_rows g b =
      .ok ⟨g.columns, (g.inner.drop (s * g.columns)).take ((e - s) * g.columns)⟩
    ∧ (e * g.columns ≤ g.inner.length →
        ((g.inner.drop (s * g.columns)).take ((e - s) * g.columns)).length =
          (e - s) * g.columns)
    ∧ (b.endB = Bd.unbounded → 0 < g.columns → g.inner.length ≤ UMAX →
        (g.inner.drop (s * g.columns)).take ((e - s) * g.columns) =
          g.inner.drop (s * g.columns))
    ∧ (b.startB = Bd.unbounded → s = 0)
    ∧ (b.endB = Bd.unbounded → e = UMAX) := by
  refine ⟨?_, ?_, ?_, ?_, ?_⟩
  · unfold iter_rows
    rw [hre]
    dsimp only
    unfold csub
    rw [if_pos hse]
  · intro hlen
    rw [List.length_take, List.length_drop, Nat.sub_mul]
    exact Nat.min_eq_left (Nat.sub_le_sub_right hlen _)
  · intro hub hc hlen
    have he : e = UMAX := by
      have hres := (extract_range_resolved b UMAX s e hre).2.1
      rw [hub] at hres
      simpa using hres
    subst he
    apply List.take_of_length_le
    rw [List.length_drop, Nat.sub_mul]
    have t2 : UMAX * 1 ≤ UMAX * g.columns := Nat.mul_le_mul_left UMAX hc
    rw [Nat.mul_one] at t2
    omega
  · intro hub
    have hres := (extract_range_resolved b UMAX s e hre).1
    rw [hub] at hres
    simpa using hres
  · intro hub
    have hres := (extract_range_resolved b UMAX s e hre).2.1
    rw [hub] at hres
    simpa using hres

/-- C9 witness: a fully unbounded row range on the 5-column `0..25`
grid resolves to `[0, usize::MAX)` and yields the whole source. -/
theorem c9_iter_rows_resolution_witness :
    iter_rows (⟨5, List.range 25⟩ : Grid Nat) ⟨Bd.unbounded, Bd.unbounded⟩ =
      .ok ⟨5, List.range 25⟩ := by
  have h := c9_iter_rows_resolution (⟨5, List.range 25⟩ : Grid Nat)
    ⟨Bd.unbounded, Bd.unbounded⟩ 0 UMAX (by decide) (by decide)
  have h3 := h.2.2.1 rfl (by decide) (by decide)
  rw [h.1, h3]
  simp

/-! ### C10: inverted explicit ranges -/

/-- C10: when `extract_range` succeeds (so the resolved end respects the
maximum), `iter_rows` and `iter_cols` abort on the subtraction
`end - start` exactly when the resolved range is inverted
(`start > end`), and never when `start <= end`. -/
theorem c10_inverted_range (g : Grid α) (b : RangeB) (s e : Nat)
    (h1 : extract_range b UMAX = .ok (s, e))
    (h2 : extract_range b g.columns = .ok (s, e)) :
    (iter_rows g b = .error .subUnderflow ↔ e < s)
    ∧ (iter_cols g b = .error .subUnderflow ↔ e < s) := by
  have hle : e ≤ g.columns := (extract_range_resolved b g.columns s e h2).2.2
  constructor
  · unfold iter_rows
    rw [h1]
    dsimp only
    unfold csub
    by_cases hse : s ≤ e
    · rw [if_pos hse]
      constructor
      · intro hx; exact absurd hx (by intro hy; exact Except.noConfusion hy)
      · intro hx; exact absurd hx (by omega)
    · rw [if_neg hse]
      constructor
      · intro _; omega
      · intro _; rfl
  · unfold iter_cols
    rw [h2]
    dsimp only
    rw [if_pos hle]
    unfold csub
    by_cases hse : s ≤ e
    · rw [if_pos hse]
      cases hcf : colFilterFrom s e g.columns 0 g.inner with
      | error p =>
        have hp := colFilterFrom_panic s e g.columns p 0 g.inner hcf
        subst hp
        simp only [hcf]
        constructor
        · intro hx; simp at hx
        · intro hx; exact absurd hx (by omega)
      | ok kept =>
        simp only [hcf]
        constructor
        · intro hx; exact absurd hx (by intro hy; exact Except.noConfusion hy)
        · intro hx; exact absurd hx (by omega)
    · rw [if_neg hse]
      constructor
      · intro _; omega
      · intro _; rfl

/-- C10 witness: the inverted explicit range `3..1` on the 5-column
`0..25` grid passes the `end <= max` assertion and then aborts on the
subtraction in both `iter_rows` and `iter_cols`. -/
theorem c10_inverted_range_witness :
    iter_rows (⟨5, List.range 25⟩ : Grid Nat) ⟨Bd.included 3, Bd.excluded 1⟩ =
      .error .subUnderflow
    ∧ iter_cols (⟨5, List.range 25⟩ : Grid Nat) ⟨Bd.included 3, Bd.excluded 1⟩ =
      .error .subUnderflow := by
  have h := c10_inverted_range (⟨5, List.range 25⟩ : Grid Nat)
    ⟨Bd.included 3, Bd.excluded 1⟩ 3 1 (by decide) (by decide)
  exact ⟨h.1.mpr (by decide), h.2.mpr (by decide)⟩

/-! ### C3: backward diagonal -/

/-- C3 counterexample: `(col,row) = (1,2)` on the 5-column `0..25` grid
satisfies every precondition of the claim (`columns ≥ 2`,
`col < columns`, no underflow), yet the element at flat offset
`index_to_flat(1,2) = 11` does not appear in the yielded sequence: the
upper-branch anchor `row - col` does not lie on the diagonal through
`(col,row)`. -/
theorem c3_counterexample :
    iter_diag_bwd (⟨5, List.range 25⟩ : Grid Nat) 1 2 = .ok [1, 5, 9, 13, 17, 21]
    ∧ index_to_flat (⟨5, List.range 25⟩ : Grid Nat) 1 2 = 11
    ∧ ¬ (11 ∈ [1, 5, 9, 13, 17, 21]) := by decide

/-- C3 (amended): under the claim's preconditions `iter_diag_bwd`
yields exactly the source elements at offsets
`anchor + k*(columns-1)` with the anchor as stated; the element at
`index_to_flat(col,row)` is guaranteed to appear only when `col > row`
or `col = 0` (not in general for `0 < col ≤ row`). -/
theorem c3_diag_bwd_anchored (g : Grid α) (col row : Nat)
    (hcs : 2 ≤ g.columns) (hcol : col < g.columns)
    (hund : row < col → g.columns - 1 - col ≤ row) :
    iter_diag_bwd g col row =
      .ok (stepAux (g.columns - 1) 0 (g.inner.drop (specBwdAnchor g.columns col row)))
    ∧ (∀ k, (stepAux (g.columns - 1) 0
        (g.inner.drop (specBwdAnchor g.columns col row)))[k]? =
        g.inner[specBwdAnchor g.columns col row + k * (g.columns - 1)]?)
    ∧ ((row < col ∨ col = 0) → index_to_flat g col row < g.inner.length →
        ∃ x, g.inner[index_to_flat g col row]? = some x ∧
          x ∈ stepAux (g.columns - 1) 0
            (g.inner.drop (specBwdAnchor g.columns col row))) := by
  have hc1 : (1 : Nat) ≤ g.columns := by omega
  have hget : ∀ k, (stepAux (g.columns - 1) 0
      (g.inner.drop (specBwdAnchor g.columns col row)))[k]? =
      g.inner[specBwdAnchor g.columns col row + k * (g.columns - 1)]? := by
    intro k
    rw [stepAux_getElem (g.columns - 1) (by omega), List.getElem?_drop, Nat.zero_add]
  refine ⟨?_, hget, ?_⟩
  · unfold iter_diag_bwd diag_bwd_skip specBwdAnchor
    by_cases hrc : row < col
    · have ha : col ≤ g.columns - 1 := by omega
      have hb : g.columns - 1 - col ≤ row := hund hrc
      simp [hrc, csub, hc1, ha, hb, index_to_flat, show ¬(g.columns - 1 = 0) by omega]
    · have hcr : col ≤ row := Nat.not_lt.mp hrc
      simp [hrc, csub, hc1, hcr, index_to_flat, show ¬(g.columns - 1 = 0) by omega]
  · intro hcase hflat
    obtain ⟨x, hx⟩ : ∃ x, g.inner[index_to_flat g col row]? = some x :=
      ⟨_, List.getElem?_eq_getElem hflat⟩
    refine ⟨x, hx, ?_⟩
    rcases hcase with hrc | hc0
    · have hb := hund hrc
      have hk : specBwdAnchor g.columns col row + (g.columns - 1 - col) * (g.columns - 1) =
          index_to_flat g col row := by
        unfold specBwdAnchor index_to_flat
        rw [if_pos hrc]
        zify [hc1, show col ≤ g.columns - 1 by omega, hb]
        ring
      exact List.getElem?_mem ((hget (g.columns - 1 - col)).trans (by rw [hk]; exact hx))
    · subst hc0
      have hk : specBwdAnchor g.columns 0 row + row * (g.columns - 1) =
          index_to_flat g 0 row := by
        unfold specBwdAnchor index_to_flat
        rw [if_neg (by omega : ¬ row < 0)]
        simp only [Nat.sub_zero]
        zify [hc1]
        ring
      exact List.getElem?_mem ((hget row).trans (by rw [hk]; exact hx))

/-- C3 witness: the claim's own example `iter_diag_bwd(3,2)` on the
5-column `0..25` grid yields `[9,13,17,21]`, and (being a `col > row`
input) contains the element at flat offset `index_to_flat(3,2) = 17`. -/
theorem c3_diag_bwd_anchored_witness :
    iter_diag_bwd (⟨5, List.range 25⟩ : Grid Nat) 3 2 = .ok [9, 13, 17, 21]
    ∧ (∃ x, (List.range 25)[index_to_flat (⟨5, List.range 25⟩ : Grid Nat) 3 2]? = some x ∧
        x ∈ stepAux (5 - 1) 0 ((List.range 25).drop (specBwdAnchor 5 3 2))) := by
  have h := c3_diag_bwd_anchored (⟨5, List.range 25⟩ : Grid Nat) 3 2
    (by decide) (by decide) (by decide)
  exact ⟨h.1.trans (by decide), h.2.2 (Or.inl (by decide)) (by decide)⟩

/-! ### C8: forward diagonal -/

/-- C8 counterexample: `iter_diag_fwd(4,2)` on the 5-column `0..25` grid
yields `[2,8,14,20]`; the last element `20` sits at `(0,4)`, which is NOT
on the diagonal through `(4,2)` (whose cells obey `col = row + 2`): the
iterator wraps past the right edge instead of stopping when the column
index leaves bounds. -/
theorem c8_counterexample :
    iter_diag_fwd (⟨5, List.range 25⟩ : Grid Nat) 4 2 = [2, 8, 14, 20]
    ∧ ¬ (∀ x ∈ iter_diag_fwd (⟨5, List.range 25⟩ : Grid Nat) 4 2,
        x % 5 = x / 5 + 2) := by decide

/-- C8 (amended): `iter_diag_fwd` starts at the spec's anchor and steps
by `columns + 1`, yielding the source elements at the arithmetic
progression of offsets until source exhaustion (wrapping past the
column edge rather than terminating there); the element at
`index_to_flat(col,row)` always lies on that progression. -/
theorem c8_diag_fwd_anchored (g : Grid α) (col row : Nat) :
    iter_diag_fwd g col row =
      stepAux (g.columns + 1) 0 (g.inner.drop (specFwdAnchor g.columns col row))
    ∧ (∀ k, (iter_diag_fwd g col row)[k]? =
        g.inner[specFwdAnchor g.columns col row + k * (g.columns + 1)]?)
    ∧ (index_to_flat g col row < g.inner.length →
        ∃ x, g.inner[index_to_flat g col row]? = some x ∧
          x ∈ iter_diag_fwd g col row) := by
  have hmain : iter_diag_fwd g col row =
      stepAux (g.columns + 1) 0 (g.inner.drop (specFwdAnchor g.columns col row)) := by
    unfold iter_diag_fwd specFwdAnchor
    by_cases h1 : col < row
    · simp [h1, Nat.le_of_lt h1, index_to_flat]
    · by_cases h2 : col ≤ row
      · have h3 : col = row := by omega
        subst h3
        simp [index_to_flat]
      · simp [h1, h2, index_to_flat]
  have hget : ∀ k, (iter_diag_fwd g col row)[k]? =
      g.inner[specFwdAnchor g.columns col row + k * (g.columns + 1)]? := by
    intro k
    rw [hmain, stepAux_getElem (g.columns + 1) (Nat.succ_pos _), List.getElem?_drop,
      Nat.zero_add]
  refine ⟨hmain, hget, ?_⟩
  intro hflat
  obtain ⟨x, hx⟩ : ∃ x, g.inner[index_to_flat g col row]? = some x :=
    ⟨_, List.getElem?_eq_getElem hflat⟩
  refine ⟨x, hx, ?_⟩
  by_cases h2 : col ≤ row
  · have hk : specFwdAnchor g.columns col row + col * (g.columns + 1) =
        index_to_flat g col row := by
      unfold specFwdAnchor index_to_flat
      rw [if_pos h2]
      zify [h2]
      ring
    exact List.getElem?_mem ((hget col).trans (by rw [hk]; exact hx))
  · have h2le : row ≤ col := by omega
    have hk : specFwdAnchor g.columns col row + row * (g.columns + 1) =
        index_to_flat g col row := by
      unfold specFwdAnchor index_to_flat
      rw [if_neg h2]
      zify [h2le]
      ring
    exact List.getElem?_mem ((hget row).trans (by rw [hk]; exact hx))

/-- C8 witness: the claim's own example `iter_diag_fwd(1,2)` on the
5-column `0..25` grid yields `[5,11,17,23]` and contains the element at
flat offset `index_to_flat(1,2) = 11`. -/
theorem c8_diag_fwd_anchored_witness :
    iter_diag_fwd (⟨5, List.range 25⟩ : Grid Nat) 1 2 = [5, 11, 17, 23]
    ∧ (∃ x, (List.range 25)[index_to_flat (⟨5, List.range 25⟩ : Grid Nat) 1 2]? = some x ∧
        x ∈ iter_diag_fwd (⟨5, List.range 25⟩ : Grid Nat) 1 2) := by
  have h := c8_diag_fwd_anchored (⟨5, List.range 25⟩ : Grid Nat) 1 2
  exact ⟨h.1.trans (by decide), h.2.2 (by decide)⟩

/-! ### C7: sub-rectangle as composition -/

/-- C7: whenever the composition `iter_rows(row_bounds)` followed by
`iter_cols(col_bounds)` succeeds, `iter_sub(col_bounds, row_bounds)`
returns exactly the composed grid, and its `columns` equals the resolved
column-range width `end - start`. -/
theorem c7_iter_sub_comp (g g2 g3 : Grid α) (cb rb : RangeB)
    (h2 : iter_rows g rb = .ok g2) (h3 : iter_cols g2 cb = .ok g3) :
    iter_sub g cb rb = .ok g3
    ∧ (∀ s e, extract_range cb g.columns = .ok (s, e) → g3.columns = e - s) := by
  have hcols : g2.columns = g.columns := iter_rows_columns g g2 rb h2
  have h3u := h3
  unfold iter_cols at h3u
  cases hq : extract_range cb g2.columns with
  | error p =>
    rw [hq] at h3u
    exact absurd h3u (by intro hy; exact Except.noConfusion hy)
  | ok pr =>
    obtain ⟨s, e⟩ := pr
    rw [hq] at h3u
    dsimp only at h3u
    by_cases hle : e ≤ g2.columns
    · rw [if_pos hle] at h3u
      cases hcsub : csub e s with
      | error p =>
        rw [hcsub] at h3u
        exact absurd h3u (by intro hy; exact Except.noConfusion hy)
      | ok nc =>
        rw [hcsub] at h3u
        dsimp only at h3u
        cases hcf : colFilterFrom s e g2.columns 0 g2.inner with
        | error p =>
          rw [hcf] at h3u
          exact absurd h3u (by intro hy; exact Except.noConfusion hy)
        | ok kept =>
          rw [hcf] at h3u
          dsimp only at h3u
          have hg3 : g3 = ⟨nc, kept⟩ := by
            injection h3u with hh
            exact hh.symm
          have hq2 : extract_range cb g.columns = .ok (s, e) := by
            rw [← hcols]
            exact hq
          have hnc : nc = e - s := by
            unfold csub at hcsub
            split at hcsub
            · injection hcsub with hh
              exact hh.symm
            · exact absurd hcsub (by intro hy; exact Except.noConfusion hy)
          constructor
          · unfold iter_sub
            rw [hq2]
            dsimp only
            rw [hcsub]
            dsimp only
            rw [h2]
            dsimp only
            rw [h3]
            dsimp only
            rw [hg3]
          · intro s2 e2 hq3
            rw [hq2] at hq3
            injection hq3 with hpair
            injection hpair with hs2 he2
            subst hs2
            subst he2
            rw [hg3]
            exact hnc
    · rw [if_neg hle] at h3u
      exact absurd h3u (by intro hy; exact Except.noConfusion hy)

/-- C7 witness: `iter_sub(1..3, 1..3)` on the 5-column `0..25` grid
equals the composition's result: a 2-column grid over `[6,7,11,12]`. -/
theorem c7_iter_sub_comp_witness :
    iter_sub (⟨5, List.range 25⟩ : Grid Nat)
      ⟨Bd.included 1, Bd.excluded 3⟩ ⟨Bd.included 1, Bd.excluded 3⟩ =
      .ok ⟨2, [6, 7, 11, 12]⟩ := by
  have h := c7_iter_sub_comp (⟨5, List.range 25⟩ : Grid Nat)
    ⟨5, [5, 6, 7, 8, 9, 10, 11, 12, 13, 14]⟩ ⟨2, [6, 7, 11, 12]⟩
    ⟨Bd.included 1, Bd.excluded 3⟩ ⟨Bd.included 1, Bd.excluded 3⟩
    (by decide) (by decide)
  exact h.1

end IterGrid
